import Mathlib

/-!
Verification development for the pico_rda5807 repository: an RDA5807 FM radio
driver (src/fm_rda5807/fm_rda5807.c) and an RDS data parser
(src/rds_parser/rds_parser.c).

Machine integers are modelled as Nat with explicit 16-bit / 8-bit truncation
where the C code truncates.  Byte arrays are modelled as total functions
Nat → Nat (a C array write at an in-range index becomes a pointwise update;
the protocol arithmetic of the source keeps every index in range).  The float
frequency arithmetic of the driver is idealized as exact rational arithmetic.
The I2C bus is external to the repository: a bus read is modelled by an
injected response (success flag plus 16-bit value, mirroring the boolean
result of fm_read_single_register), a bus write by an injected success flag
(mirroring the boolean result of fm_write_single_register); every bus
transaction a function performs is returned in an explicit operation list so
that claims about the number of register accesses can be stated.
-/

--
-- byte-array primitives
--

/-- A write of one byte into a byte array (C `a[i] = v`). -/
def arr_set (a : Nat → Nat) (i : Nat) (v : Nat) : Nat → Nat :=
  fun j => if j = i then v else a j

/-- `memcpy(dst, src, n)` over byte arrays. -/
def arr_copy (dst src : Nat → Nat) (n : Nat) : Nat → Nat :=
  fun j => if j < n then src j else dst j

/-- Length of the C string stored in a byte array, scanning from index `i`
with at most `fuel` cells remaining (`strlen` bounded by the buffer size). -/
def cstr_len_from (s : Nat → Nat) : Nat → Nat → Nat
  | _, 0 => 0
  | i, fuel + 1 => if s i = 0 then 0 else cstr_len_from s (i + 1) fuel + 1

/-- `strlen` of the 65-byte radio-text buffer. -/
def rt_c_str_len (s : Nat → Nat) : Nat :=
  cstr_len_from s 0 65

--
-- rds_parser: data model (rds_parser.h)
--

/-- RDS block group: four 16-bit words (rds_group_t). -/
structure rds_group_t where
  a : Nat
  b : Nat
  c : Nat
  d : Nat

/-- RDS parser state (rds_parser_t).  The fixed-size C char arrays ps_str[9],
ps_scratch_str[9], rt_str[65], rt_scratch_str[65] are modelled as byte
functions; alt_freq[25] together with alt_freq_count is modelled as the list
of its first alt_freq_count entries. -/
structure rds_parser_t where
  pi : Nat
  pty : Nat
  tp : Bool
  ta : Bool
  ms : Bool
  di : Nat
  di_scratch : Nat
  ps_str : Nat → Nat
  ps_scratch_str : Nat → Nat
  rt_str : Nat → Nat
  rt_scratch_str : Nat → Nat
  rt_a_b : Bool
  rt_scratch_a_b : Bool
  alt_freq : List Nat

/-- rds_get_group_pi. -/
def rds_get_group_pi (group : rds_group_t) : Nat :=
  group.a

/-- rds_get_group_type: `group->b >> 12`. -/
def rds_get_group_type (group : rds_group_t) : Nat :=
  group.b >>> 12

/-- rds_get_group_version: `(group->b >> 11) & 0x01`. -/
def rds_get_group_version (group : rds_group_t) : Nat :=
  (group.b >>> 11) &&& 0x1

/-- rds_get_group_tp: `((group->b >> 10) & 0x01) != 0`. -/
def rds_get_group_tp (group : rds_group_t) : Bool :=
  (group.b >>> 10) &&& 0x1 != 0

/-- rds_get_group_pty: `(group->b >> 5) & 0x1F`. -/
def rds_get_group_pty (group : rds_group_t) : Nat :=
  (group.b >>> 5) &&& 0x1F

/-- rds_parse_group_basic_ps: write the two characters of fragment
`address = group->b & 0x3` into the scratch buffer; when the address is 3
(last fragment) copy the 8 scratch characters to the public buffer. -/
def rds_parse_group_basic_ps (parser : rds_parser_t) (group : rds_group_t) :
    rds_parser_t :=
  let address := group.b &&& 0x3
  let char_index := 2 * address
  let ch0 := group.d >>> 8
  let ch1 := group.d &&& 0xFF
  let scratch := arr_set (arr_set parser.ps_scratch_str char_index ch0)
    (char_index + 1) ch1
  let parser1 := { parser with ps_scratch_str := scratch }
  if address = 3 then
    { parser1 with ps_str := arr_copy parser1.ps_str scratch 8 }
  else
    parser1

/-- rds_parse_group_basic_di: store one decoder-identification bit, indexed
by the complement of the low 2 bits of b; commit when the index reaches 0.
di_scratch is uint8_t, so the update is truncated to 8 bits (the `&&& 0xFF`;
a no-op here since the index is below 8). -/
def rds_parse_group_basic_di (parser : rds_parser_t) (group : rds_group_t) :
    rds_parser_t :=
  let di_bit_index := (group.b ^^^ 0xFFFF) &&& 0x3
  let di_bit := (group.b >>> 2) &&& 0x1
  let di_scratch :=
    ((parser.di_scratch &&& (0xFF ^^^ (1 <<< di_bit_index))) |||
      (di_bit <<< di_bit_index)) &&& 0xFF
  let parser1 := { parser with di_scratch := di_scratch }
  if di_bit_index = 0 then
    { parser1 with di := di_scratch }
  else
    parser1

/-- rds_add_alt_freq: append a candidate alternate-frequency byte unless it
is out of range (0 or ≥ 205), the list is at its capacity of 25
(`sizeof(parser->alt_freq)`), or the value is already present. -/
def rds_add_alt_freq (parser : rds_parser_t) (alt_freq : Nat) : rds_parser_t :=
  if alt_freq = 0 ∨ 205 ≤ alt_freq then
    parser
  else if parser.alt_freq.length = 25 then
    parser
  else if alt_freq ∈ parser.alt_freq then
    parser
  else
    { parser with alt_freq := parser.alt_freq ++ [alt_freq] }

/-- rds_parse_group_basic_alt_freq: for version-0 (0A) groups, extract two
raw frequency bytes from word c and add each to the list. -/
def rds_parse_group_basic_alt_freq (parser : rds_parser_t)
    (group : rds_group_t) : rds_parser_t :=
  if rds_get_group_version group ≠ 0 then
    parser
  else
    rds_add_alt_freq (rds_add_alt_freq parser (group.c >>> 8))
      (group.c &&& 0xFF)

/-- rds_parse_group_basic: station-name fragment, then DI bit, then
alternate frequencies (both compile-time feature flags are at their default
of 1). -/
def rds_parse_group_basic (parser : rds_parser_t) (group : rds_group_t) :
    rds_parser_t :=
  rds_parse_group_basic_alt_freq
    (rds_parse_group_basic_di (rds_parse_group_basic_ps parser group) group)
    group

/-- The character-consumption loop of rds_parse_group_rt: write characters
into the scratch buffer starting at char_index; stop early writing a NUL
terminator when a carriage return (13) is met, or stop after the write that
makes char_index reach 64.  Returns (scratch, char_index, finished). -/
def rt_consume : List Nat → Nat → (Nat → Nat) → ((Nat → Nat) × Nat × Bool)
  | [], char_index, scratch => (scratch, char_index, false)
  | ch :: rest, char_index, scratch =>
    if ch = 13 then
      (arr_set scratch char_index 0, char_index + 1, true)
    else if char_index + 1 = 64 then
      (arr_set scratch char_index ch, char_index + 1, true)
    else
      rt_consume rest (char_index + 1) (arr_set scratch char_index ch)

/-- rds_parse_group_rt: radio-text fragment.  Version 0 (2A) carries four
characters at offset address*4, version 1 (2B) two characters at offset
address*2; on a finishing condition the 64 scratch bytes and the A/B flag
are committed. -/
def rds_parse_group_rt (parser : rds_parser_t) (group : rds_group_t) :
    rds_parser_t :=
  let version := rds_get_group_version group
  let address := group.b &&& 0xF
  let parser1 := { parser with rt_scratch_a_b := (group.b >>> 4) &&& 0x1 != 0 }
  let r :=
    if version = 0 then
      rt_consume [group.c >>> 8, group.c &&& 0xFF, group.d >>> 8,
        group.d &&& 0xFF] (address * 4) parser1.rt_scratch_str
    else
      rt_consume [group.d >>> 8, group.d &&& 0xFF] (address * 2)
        parser1.rt_scratch_str
  let parser2 := { parser1 with rt_scratch_str := r.1 }
  if r.2.2 then
    { parser2 with rt_str := arr_copy parser2.rt_str r.1 64,
                   rt_a_b := parser2.rt_scratch_a_b }
  else
    parser2

/-- rds_parser_reset: memset of the whole parser state to zero. -/
def rds_parser_reset : rds_parser_t where
  pi := 0
  pty := 0
  tp := false
  ta := false
  ms := false
  di := 0
  di_scratch := 0
  ps_str := fun _ => 0
  ps_scratch_str := fun _ => 0
  rt_str := fun _ => 0
  rt_scratch_str := fun _ => 0
  rt_a_b := false
  rt_scratch_a_b := false
  alt_freq := []

/-- rds_parser_update: overwrite pi/pty/tp unconditionally, then dispatch on
the group type (0x00 basic, 0x02 radio text, otherwise ignored). -/
def rds_parser_update (parser : rds_parser_t) (group : rds_group_t) :
    rds_parser_t :=
  let parser1 := { parser with
    pi := rds_get_group_pi group
    pty := rds_get_group_pty group
    tp := rds_get_group_tp group }
  if rds_get_group_type group = 0 then
    rds_parse_group_basic parser1 group
  else if rds_get_group_type group = 2 then
    rds_parse_group_rt parser1 group
  else
    parser1

/-- rds_has_music accessor (rds_parser.h). -/
def rds_has_music (parser : rds_parser_t) : Bool :=
  parser.ms

/-- rds_has_traffic_announcement accessor (rds_parser.h). -/
def rds_has_traffic_announcement (parser : rds_parser_t) : Bool :=
  parser.ta

--
-- fm_rda5807: data model (fm_rda5807.h, fm_rda5807_regs.h)
--

/-- fm_band_t. -/
inductive fm_band_t where
  | common
  | japan
  | japan_wide
  | east_europe
  | east_europe_upper
deriving DecidableEq

/-- fm_channel_spacing_t (the numeric suffix is the spacing in kHz). -/
inductive fm_channel_spacing_t where
  | s200
  | s100
  | s50
  | s25
deriving DecidableEq

/-- fm_deemphasis_t (the numeric suffix is the de-emphasis in µs). -/
inductive fm_deemphasis_t where
  | de75
  | de50
deriving DecidableEq

/-- fm_config_t. -/
structure fm_config_t where
  band : fm_band_t
  channel_spacing : fm_channel_spacing_t
  deemphasis : fm_deemphasis_t
deriving DecidableEq

/-- fm_frequency_range_t, with the float MHz fields idealized as exact
rationals. -/
structure fm_frequency_range_t where
  bottom : ℚ
  top : ℚ
  spacing : ℚ
deriving DecidableEq

/-- fm_seek_direction_t. -/
inductive fm_seek_direction_t where
  | down
  | up
deriving DecidableEq

/-- fm_async_progress_t. -/
structure fm_async_progress_t where
  done : Bool
  result : Int
deriving DecidableEq

/-- The two functions ever stored in the C function pointer
fm_async_task_t (fm_set_frequency_async_task and fm_seek_async_task),
as an explicit tag. -/
inductive fm_async_task_t where
  | set_frequency
  | seek
deriving DecidableEq

/-- fm_async_state_t. -/
structure fm_async_state_t where
  task : Option fm_async_task_t
  state : Nat
  resume_time : Nat
deriving DecidableEq

/-- The zero value `(fm_async_state_t){}` used to clear the task state. -/
def fm_async_state_empty : fm_async_state_t :=
  { task := none, state := 0, resume_time := 0 }

/-- rda5807_t.  The i2c instance handle and the pin/pull-up fields are
external bus plumbing and carry no driver logic, so they are omitted; the
16-entry uint16_t register mirror becomes a function from register index to
value. -/
structure rda5807_t where
  config : fm_config_t
  frequency_range : fm_frequency_range_t
  seek_threshold : Nat
  frequency : ℚ
  volume : Nat
  mute : Bool
  softmute : Bool
  bass_boost : Bool
  mono : Bool
  regs : Nat → Nat
  async : fm_async_state_t

--
-- register bit layout (fm_rda5807_regs.h)
--

/-- ENABLE bit of register 0x2. -/
def ENABLE_BIT : Nat := 1 <<< 0

/-- SEEK bit of register 0x2. -/
def SEEK_BIT : Nat := 1 <<< 8

/-- SEEKUP bit of register 0x2. -/
def SEEKUP_BIT : Nat := 1 <<< 9

/-- SKMODE bit of register 0x2. -/
def SKMODE_BIT : Nat := 1 <<< 7

/-- BASS bit of register 0x2. -/
def BASS_BIT : Nat := 1 <<< 12

/-- MONO bit of register 0x2. -/
def MONO_BIT : Nat := 1 <<< 13

/-- DMUTE bit of register 0x2. -/
def DMUTE_BIT : Nat := 1 <<< 14

/-- TUNE bit of register 0x3. -/
def TUNE_BIT : Nat := 1 <<< 4

/-- CHAN field position in register 0x3. -/
def CHAN_LSB : Nat := 6

/-- CHAN field mask in register 0x3. -/
def CHAN_BITS : Nat := 0x3FF <<< 6

/-- SOFTMUTE_EN bit of register 0x4. -/
def SOFTMUTE_EN_BIT : Nat := 1 <<< 9

/-- VOLUME field position in register 0x5. -/
def VOLUME_LSB : Nat := 0

/-- VOLUME field mask in register 0x5. -/
def VOLUME_BITS : Nat := 0xF <<< 0

/-- SEEKTH field position in register 0x5. -/
def SEEKTH_LSB : Nat := 8

/-- SEEKTH field mask in register 0x5. -/
def SEEKTH_BITS : Nat := 0xF <<< 8

/-- STC bit of register 0xA. -/
def STC_BIT : Nat := 1 <<< 14

/-- SF bit of register 0xA. -/
def SF_BIT : Nat := 1 <<< 13

/-- READCHAN field mask in register 0xA. -/
def READCHAN_BITS : Nat := 0x3FF

/-- FM_MAX_VOLUME. -/
def FM_MAX_VOLUME : Nat := 15

/-- FM_MAX_SEEK_THRESHOLD. -/
def FM_MAX_SEEK_THRESHOLD : Nat := 15

/-- fm_set_bit macro on a 16-bit register value: set gives `reg |= bit`,
clear gives `reg &= ~bit` with the complement truncated to 16 bits. -/
def fm_set_bit (reg : Nat) (bit : Nat) (value : Bool) : Nat :=
  if value then reg ||| bit else reg &&& (0xFFFF ^^^ bit)

/-- fm_get_bit macro: `(reg & bit) != 0`. -/
def fm_get_bit (reg : Nat) (bit : Nat) : Bool :=
  reg &&& bit != 0

/-- fm_set_bits macro: `reg &= ~bits; reg |= value << lsb`, both assignments
truncated to the 16-bit register width. -/
def fm_set_bits (reg : Nat) (bits : Nat) (lsb : Nat) (value : Nat) : Nat :=
  (reg &&& (0xFFFF ^^^ bits)) ||| ((value <<< lsb) &&& 0xFFFF)

/-- fm_get_bits macro: `(reg & bits) >> lsb`. -/
def fm_get_bits (reg : Nat) (bits : Nat) (lsb : Nat) : Nat :=
  (reg &&& bits) >>> lsb

--
-- bus transactions
--

/-- One I2C transaction issued by the driver: a batched register write
starting at an index (fm_write_registers / fm_write_single_register), or a
single register read (fm_read_single_register). -/
inductive fm_bus_op where
  | write_regs (start : Nat) (values : List Nat)
  | read_reg (index : Nat)
deriving DecidableEq

/-- Injected response of one bus read: the boolean result of
fm_read_single_register and the 16-bit value transferred on success. -/
structure hw_read where
  ok : Bool
  value : Nat
deriving DecidableEq

/-- The bus responses an async-task step can consume: the poll read of
register 0xA, and the final read of register 0xA after clearing the
tune/seek bit. -/
structure hw_responses where
  poll : hw_read
  final : hw_read
deriving DecidableEq

/-- Effect of fm_read_single_register on the register mirror: on success the
register takes the 16-bit bus value, on failure the mirror keeps its old
contents (the callers in the task code ignore the boolean result). -/
def fm_apply_read (regs : Nat → Nat) (index : Nat) (r : hw_read) :
    Nat → Nat :=
  if r.ok then arr_set regs index (r.value &&& 0xFFFF) else regs

--
-- frequency range and channel arithmetic (fm_rda5807.c)
--

/-- fm_frequency_range: band selects {bottom, top}, spacing selects the
channel step (the C switch maps both 50 kHz and the default 25 kHz case to
0.05 MHz). -/
def fm_frequency_range (band : fm_band_t)
    (channel_spacing : fm_channel_spacing_t) : fm_frequency_range_t :=
  let bt : ℚ × ℚ :=
    match band with
    | .common => (87, 108)
    | .japan => (76, 91)
    | .japan_wide => (76, 108)
    | .east_europe => (50, 76)
    | .east_europe_upper => (65, 76)
  let spacing : ℚ :=
    match channel_spacing with
    | .s200 => 1/5
    | .s100 => 1/10
    | .s50 => 1/20
    | .s25 => 1/20
  { bottom := bt.1, top := bt.2, spacing := spacing }

/-- fm_channel_to_frequency: `channel * spacing + bottom`. -/
def fm_channel_to_frequency (channel : Nat) (range : fm_frequency_range_t) :
    ℚ :=
  channel * range.spacing + range.bottom

/-- fm_frequency_to_channel: `(uint16_t)roundf((frequency - bottom) /
spacing)`; for the in-range arguments the driver uses, the rounded value is
a small nonnegative integer, so the uint16_t conversion is `Int.toNat`. -/
def fm_frequency_to_channel (frequency : ℚ) (range : fm_frequency_range_t) :
    Nat :=
  (round ((frequency - range.bottom) / range.spacing)).toNat

--
-- async tasks (fm_rda5807.c)
--

/-- TUNE_POLL_INTERVAL_MS in microseconds. -/
def TUNE_POLL_INTERVAL_US : Nat := 5 * 1000

/-- SEEK_POLL_INTERVAL_MS in microseconds. -/
def SEEK_POLL_INTERVAL_US : Nat := 200 * 1000

/-- Completion path of fm_set_frequency_async_task: clear the TUNE bit,
write register 0x3, re-read register 0xA and take READCHAN as the settled
frequency. -/
def fm_tune_task_finish (radio : rda5807_t) (hw : hw_responses)
    (result : Int) : rda5807_t × fm_async_progress_t × List fm_bus_op :=
  let reg3 := fm_set_bit (radio.regs 0x3) TUNE_BIT false
  let regs := arr_set radio.regs 0x3 reg3
  let regs := fm_apply_read regs 0xA hw.final
  let channel := fm_get_bits (regs 0xA) READCHAN_BITS 0
  ({ radio with
      regs := regs
      frequency := fm_channel_to_frequency channel radio.frequency_range },
   { done := true, result := result },
   [.write_regs 0x3 [reg3], .read_reg 0xA])

/-- fm_set_frequency_async_task: on cancel, finish with result -1; otherwise
poll register 0xA, and while STC is clear reschedule 5 ms ahead, else
finish with result 0. -/
def fm_set_frequency_async_task (radio : rda5807_t) (cancel : Bool)
    (now : Nat) (hw : hw_responses) :
    rda5807_t × fm_async_progress_t × List fm_bus_op :=
  if cancel then
    fm_tune_task_finish radio hw (-1)
  else
    let regs := fm_apply_read radio.regs 0xA hw.poll
    let radio1 := { radio with regs := regs }
    if fm_get_bit (regs 0xA) STC_BIT then
      let r := fm_tune_task_finish radio1 hw 0
      (r.1, r.2.1, .read_reg 0xA :: r.2.2)
    else
      ({ radio1 with async :=
           { radio1.async with resume_time := now + TUNE_POLL_INTERVAL_US } },
       { done := false, result := 0 },
       [.read_reg 0xA])

/-- Completion path of fm_seek_async_task: clear the SEEK bit, write
register 0x2, re-read register 0xA and take READCHAN as the landed
frequency. -/
def fm_seek_task_finish (radio : rda5807_t) (hw : hw_responses)
    (result : Int) : rda5807_t × fm_async_progress_t × List fm_bus_op :=
  let reg2 := fm_set_bit (radio.regs 0x2) SEEK_BIT false
  let regs := arr_set radio.regs 0x2 reg2
  let regs := fm_apply_read regs 0xA hw.final
  let channel := fm_get_bits (regs 0xA) READCHAN_BITS 0
  ({ radio with
      regs := regs
      frequency := fm_channel_to_frequency channel radio.frequency_range },
   { done := true, result := result },
   [.write_regs 0x2 [reg2], .read_reg 0xA])

/-- fm_seek_async_task: on cancel, finish with result -1; otherwise poll
register 0xA, and while STC is clear update the frequency from READCHAN and
reschedule 200 ms ahead; on STC, report -1 if the seek-failed flag is set,
then finish. -/
def fm_seek_async_task (radio : rda5807_t) (cancel : Bool) (now : Nat)
    (hw : hw_responses) :
    rda5807_t × fm_async_progress_t × List fm_bus_op :=
  if cancel then
    fm_seek_task_finish radio hw (-1)
  else
    let regs := fm_apply_read radio.regs 0xA hw.poll
    let radio1 := { radio with regs := regs }
    if fm_get_bit (regs 0xA) STC_BIT then
      let result : Int := if fm_get_bit (regs 0xA) SF_BIT then -1 else 0
      let r := fm_seek_task_finish radio1 hw result
      (r.1, r.2.1, .read_reg 0xA :: r.2.2)
    else
      let channel := fm_get_bits (regs 0xA) READCHAN_BITS 0
      ({ radio1 with
           frequency := fm_channel_to_frequency channel
             radio1.frequency_range,
           async :=
             { radio1.async with
                 resume_time := now + SEEK_POLL_INTERVAL_US } },
       { done := false, result := 0 },
       [.read_reg 0xA])

/-- fm_async_task_tick: before the scheduled resume time, return not-done
without touching anything; otherwise run the stored task step and clear the
task state when it reports done.  (The C code asserts that a task is
running; the `none` arm is the vacuous fallback for that precondition.) -/
def fm_async_task_tick (radio : rda5807_t) (now : Nat) (hw : hw_responses) :
    rda5807_t × fm_async_progress_t × List fm_bus_op :=
  if now < radio.async.resume_time then
    (radio, { done := false, result := 0 }, [])
  else
    let r :=
      match radio.async.task with
      | some fm_async_task_t.set_frequency =>
        fm_set_frequency_async_task radio false now hw
      | some fm_async_task_t.seek => fm_seek_async_task radio false now hw
      | none => (radio, { done := false, result := 0 }, [])
    if r.2.1.done then
      ({ r.1 with async := fm_async_state_empty }, r.2.1, r.2.2)
    else
      r

/-- fm_async_task_cancel: run the stored task step with the cancel flag,
then clear the task state unconditionally. -/
def fm_async_task_cancel (radio : rda5807_t) (now : Nat)
    (hw : hw_responses) : rda5807_t × List fm_bus_op :=
  let r :=
    match radio.async.task with
    | some fm_async_task_t.set_frequency =>
      fm_set_frequency_async_task radio true now hw
    | some fm_async_task_t.seek => fm_seek_async_task radio true now hw
    | none =>
      (radio, ({ done := false, result := 0 } : fm_async_progress_t),
       ([] : List fm_bus_op))
  ({ r.1 with async := fm_async_state_empty }, r.2.2)

--
-- public interface (fm_rda5807.c)
--

/-- fm_is_powered_up: the ENABLE bit of mirrored register 0x2. -/
def fm_is_powered_up (radio : rda5807_t) : Bool :=
  fm_get_bit (radio.regs 0x2) ENABLE_BIT

/-- The `if (radio->async.task != NULL) fm_async_task_cancel(radio);` prefix
of fm_power_down. -/
def fm_cancel_if_active (radio : rda5807_t) (now : Nat)
    (hw : hw_responses) : rda5807_t × List fm_bus_op :=
  match radio.async.task with
  | some _ => fm_async_task_cancel radio now hw
  | none => (radio, [])

/-- fm_power_down: cancel any in-flight async task, clear the ENABLE bit and
write register 0x2 (the write result is ignored). -/
def fm_power_down (radio : rda5807_t) (now : Nat) (hw : hw_responses) :
    rda5807_t × List fm_bus_op :=
  let r := fm_cancel_if_active radio now hw
  let reg2 := fm_set_bit (r.1.regs 0x2) ENABLE_BIT false
  ({ r.1 with regs := arr_set r.1.regs 0x2 reg2 },
   r.2 ++ [.write_regs 0x2 [reg2]])

/-- fm_set_mute: no-op when the mirror already equals the request, otherwise
update DMUTE in register 0x2, issue the write (its boolean result writeOk is
ignored by the source) and store the new mirror value. -/
def fm_set_mute (radio : rda5807_t) (mute : Bool) (writeOk : Bool) :
    rda5807_t × List fm_bus_op :=
  if radio.mute = mute then
    (radio, [])
  else
    let reg2 := fm_set_bit (radio.regs 0x2) DMUTE_BIT (!mute)
    ({ radio with regs := arr_set radio.regs 0x2 reg2, mute := mute },
     [.write_regs 0x2 [reg2]])

/-- fm_set_softmute: no-op on an equal value, otherwise update SOFTMUTE_EN
in register 0x4 and batch-write registers 0x2..0x4 (the boolean result
writeOk is ignored by the source). -/
def fm_set_softmute (radio : rda5807_t) (softmute : Bool) (writeOk : Bool) :
    rda5807_t × List fm_bus_op :=
  if radio.softmute = softmute then
    (radio, [])
  else
    let reg4 := fm_set_bit (radio.regs 0x4) SOFTMUTE_EN_BIT softmute
    let regs := arr_set radio.regs 0x4 reg4
    ({ radio with regs := regs, softmute := softmute },
     [.write_regs 0x2 [regs 0x2, regs 0x3, regs 0x4]])

/-- fm_set_bass_boost: no-op on an equal value, otherwise update BASS in
register 0x2 and write it (the boolean result writeOk is ignored by the
source). -/
def fm_set_bass_boost (radio : rda5807_t) (bass_boost : Bool)
    (writeOk : Bool) : rda5807_t × List fm_bus_op :=
  if radio.bass_boost = bass_boost then
    (radio, [])
  else
    let reg2 := fm_set_bit (radio.regs 0x2) BASS_BIT bass_boost
    ({ radio with
        regs := arr_set radio.regs 0x2 reg2
        bass_boost := bass_boost },
     [.write_regs 0x2 [reg2]])

/-- fm_set_mono: no-op on an equal value, otherwise update MONO in register
0x2 and write it (the boolean result writeOk is ignored by the source). -/
def fm_set_mono (radio : rda5807_t) (mono : Bool) (writeOk : Bool) :
    rda5807_t × List fm_bus_op :=
  if radio.mono = mono then
    (radio, [])
  else
    let reg2 := fm_set_bit (radio.regs 0x2) MONO_BIT mono
    ({ radio with regs := arr_set radio.regs 0x2 reg2, mono := mono },
     [.write_regs 0x2 [reg2]])

/-- fm_set_volume: clamp to FM_MAX_VOLUME, no-op on an equal value,
otherwise update the VOLUME field of register 0x5 and write it (the boolean
result writeOk is ignored by the source). -/
def fm_set_volume (radio : rda5807_t) (volume : Nat) (writeOk : Bool) :
    rda5807_t × List fm_bus_op :=
  let volume := min volume FM_MAX_VOLUME
  if volume = radio.volume then
    (radio, [])
  else
    let reg5 := fm_set_bits (radio.regs 0x5) VOLUME_BITS VOLUME_LSB volume
    ({ radio with regs := arr_set radio.regs 0x5 reg5, volume := volume },
     [.write_regs 0x5 [reg5]])

/-- fm_set_seek_threshold: clamp to FM_MAX_SEEK_THRESHOLD, no-op on an equal
value, otherwise update the SEEKTH field of register 0x5 and write it (the
boolean result writeOk is ignored by the source). -/
def fm_set_seek_threshold (radio : rda5807_t) (seek_threshold : Nat)
    (writeOk : Bool) : rda5807_t × List fm_bus_op :=
  let seek_threshold := min seek_threshold FM_MAX_SEEK_THRESHOLD
  if seek_threshold = radio.seek_threshold then
    (radio, [])
  else
    let reg5 := fm_set_bits (radio.regs 0x5) SEEKTH_BITS SEEKTH_LSB
      seek_threshold
    ({ radio with
        regs := arr_set radio.regs 0x5 reg5
        seek_threshold := seek_threshold },
     [.write_regs 0x5 [reg5]])

/-- fm_set_frequency_async: clamp the target into range, write the channel
and the TUNE start bit into register 0x3, and arm the tune task 5 ms ahead.
There is no equal-value early return in this function. -/
def fm_set_frequency_async (radio : rda5807_t) (frequency : ℚ) (now : Nat) :
    rda5807_t × List fm_bus_op :=
  let frequency := max frequency radio.frequency_range.bottom
  let frequency := min frequency radio.frequency_range.top
  let channel := fm_frequency_to_channel frequency radio.frequency_range
  let reg3 := fm_set_bit
    (fm_set_bits (radio.regs 0x3) CHAN_BITS CHAN_LSB channel) TUNE_BIT true
  ({ radio with
      regs := arr_set radio.regs 0x3 reg3
      async := { task := some fm_async_task_t.set_frequency, state := 1,
                 resume_time := now + TUNE_POLL_INTERVAL_US } },
   [.write_regs 0x3 [reg3]])

/-- The polling loop of fm_set_frequency_blocking: sleep 5 ms then tick,
until the tick reports done.  The loop is bounded by explicit fuel (the C
loop runs until the hardware reports completion); `hw` supplies the bus
responses of each iteration. -/
def fm_blocking_loop : Nat → rda5807_t → Nat → (Nat → hw_responses) →
    rda5807_t × fm_async_progress_t × List fm_bus_op
  | 0, radio, _, _ => (radio, { done := false, result := 0 }, [])
  | fuel + 1, radio, now, hw =>
    let now1 := now + TUNE_POLL_INTERVAL_US
    let r := fm_async_task_tick radio now1 (hw 0)
    if r.2.1.done then
      r
    else
      let r2 := fm_blocking_loop fuel r.1 now1 (fun i => hw (i + 1))
      (r2.1, r2.2.1, r.2.2 ++ r2.2.2)

/-- fm_set_frequency_blocking: early return when the target equals the
current frequency, otherwise start the async tune and poll it to
completion. -/
def fm_set_frequency_blocking (radio : rda5807_t) (frequency : ℚ)
    (now : Nat) (hw : Nat → hw_responses) (fuel : Nat) :
    rda5807_t × List fm_bus_op :=
  if radio.frequency = frequency then
    (radio, [])
  else
    let r := fm_set_frequency_async radio frequency now
    let r2 := fm_blocking_loop fuel r.1 now hw
    (r2.1, r.2 ++ r2.2.2)

--
-- concrete sample states (for counterexamples and witnesses)
--

/-- A concrete powered-up device with no async task: European band
configuration, tuned to 90 MHz, volume 5, unmuted; register 0x2 mirrors a
typical post-power-up value 0xC001 (DHIZ, DMUTE and ENABLE set). -/
def radio0 : rda5807_t where
  config := { band := .common, channel_spacing := .s100,
              deemphasis := .de50 }
  frequency_range := fm_frequency_range .common .s100
  seek_threshold := 8
  frequency := 90
  volume := 5
  mute := false
  softmute := true
  bass_boost := false
  mono := false
  regs := fun i => if i = 2 then 0xC001 else 0
  async := fm_async_state_empty

/-- radio0 with a tune task in flight, scheduled to resume at 1000 µs. -/
def radio_tuning : rda5807_t :=
  { radio0 with async := { task := some fm_async_task_t.set_frequency,
                           state := 1, resume_time := 1000 } }

/-- A bus that answers both reads of an async step successfully with 0. -/
def hw_zero : hw_responses where
  poll := { ok := true, value := 0 }
  final := { ok := true, value := 0 }

--
-- helper lemmas: which parser fields each decode step can touch
--

theorem rds_parse_group_basic_ps_preserves (p : rds_parser_t)
    (g : rds_group_t) :
    (rds_parse_group_basic_ps p g).ta = p.ta ∧
    (rds_parse_group_basic_ps p g).ms = p.ms ∧
    (rds_parse_group_basic_ps p g).di = p.di ∧
    (rds_parse_group_basic_ps p g).di_scratch = p.di_scratch ∧
    (rds_parse_group_basic_ps p g).rt_str = p.rt_str ∧
    (rds_parse_group_basic_ps p g).rt_scratch_str = p.rt_scratch_str ∧
    (rds_parse_group_basic_ps p g).alt_freq = p.alt_freq := by
  unfold rds_parse_group_basic_ps
  dsimp only
  split <;> simp

theorem rds_parse_group_basic_di_preserves (p : rds_parser_t)
    (g : rds_group_t) :
    (rds_parse_group_basic_di p g).ta = p.ta ∧
    (rds_parse_group_basic_di p g).ms = p.ms ∧
    (rds_parse_group_basic_di p g).ps_str = p.ps_str ∧
    (rds_parse_group_basic_di p g).ps_scratch_str = p.ps_scratch_str ∧
    (rds_parse_group_basic_di p g).rt_str = p.rt_str ∧
    (rds_parse_group_basic_di p g).rt_scratch_str = p.rt_scratch_str ∧
    (rds_parse_group_basic_di p g).alt_freq = p.alt_freq := by
  unfold rds_parse_group_basic_di
  dsimp only
  split <;> simp

theorem rds_add_alt_freq_preserves (p : rds_parser_t) (v : Nat) :
    (rds_add_alt_freq p v).ta = p.ta ∧
    (rds_add_alt_freq p v).ms = p.ms ∧
    (rds_add_alt_freq p v).ps_str = p.ps_str ∧
    (rds_add_alt_freq p v).ps_scratch_str = p.ps_scratch_str ∧
    (rds_add_alt_freq p v).rt_str = p.rt_str ∧
    (rds_add_alt_freq p v).rt_scratch_str = p.rt_scratch_str ∧
    (rds_add_alt_freq p v).di = p.di := by
  unfold rds_add_alt_freq
  split <;> try simp
  split <;> try simp
  split <;> simp

theorem rds_parse_group_basic_alt_freq_preserves (p : rds_parser_t)
    (g : rds_group_t) :
    (rds_parse_group_basic_alt_freq p g).ta = p.ta ∧
    (rds_parse_group_basic_alt_freq p g).ms = p.ms ∧
    (rds_parse_group_basic_alt_freq p g).ps_str = p.ps_str ∧
    (rds_parse_group_basic_alt_freq p g).ps_scratch_str =
      p.ps_scratch_str ∧
    (rds_parse_group_basic_alt_freq p g).rt_str = p.rt_str ∧
    (rds_parse_group_basic_alt_freq p g).rt_scratch_str =
      p.rt_scratch_str ∧
    (rds_parse_group_basic_alt_freq p g).di = p.di := by
  unfold rds_parse_group_basic_alt_freq
  split
  · simp
  · simp [rds_add_alt_freq_preserves]

theorem rds_parse_group_rt_preserves (p : rds_parser_t) (g : rds_group_t) :
    (rds_parse_group_rt p g).ta = p.ta ∧
    (rds_parse_group_rt p g).ms = p.ms ∧
    (rds_parse_group_rt p g).ps_str = p.ps_str ∧
    (rds_parse_group_rt p g).ps_scratch_str = p.ps_scratch_str ∧
    (rds_parse_group_rt p g).di = p.di ∧
    (rds_parse_group_rt p g).di_scratch = p.di_scratch ∧
    (rds_parse_group_rt p g).alt_freq = p.alt_freq := by
  unfold rds_parse_group_rt
  dsimp only
  split <;> split <;> simp

theorem rds_parser_update_preserves_ta_ms (p : rds_parser_t)
    (g : rds_group_t) :
    (rds_parser_update p g).ta = p.ta ∧ (rds_parser_update p g).ms = p.ms := by
  unfold rds_parser_update rds_parse_group_basic
  split
  · simp [rds_parse_group_basic_alt_freq_preserves,
      rds_parse_group_basic_di_preserves, rds_parse_group_basic_ps_preserves]
  · split
    · simp [rds_parse_group_rt_preserves]
    · simp

/-- The combined effect of a basic (type-0) group on the two station-name
buffers: the fragment's two characters land in the scratch buffer at offset
2*address, and the public buffer receives the first 8 scratch bytes exactly
when the address is 3. -/
theorem rds_update_basic_ps_fields (p : rds_parser_t) (g : rds_group_t)
    (h1 : g.b >>> 12 = 0) :
    (rds_parser_update p g).ps_scratch_str =
      arr_set (arr_set p.ps_scratch_str (2 * (g.b &&& 0x3)) (g.d >>> 8))
        (2 * (g.b &&& 0x3) + 1) (g.d &&& 0xFF) ∧
    (rds_parser_update p g).ps_str =
      (if g.b &&& 0x3 = 3 then
        arr_copy p.ps_str
          (arr_set (arr_set p.ps_scratch_str (2 * (g.b &&& 0x3))
            (g.d >>> 8)) (2 * (g.b &&& 0x3) + 1) (g.d &&& 0xFF)) 8
      else p.ps_str) := by
  unfold rds_parser_update rds_get_group_type
  rw [if_pos h1]
  unfold rds_parse_group_basic
  constructor
  · rw [(rds_parse_group_basic_alt_freq_preserves _ _).2.2.2.1,
      (rds_parse_group_basic_di_preserves _ _).2.2.2.1]
    unfold rds_parse_group_basic_ps
    dsimp only
    split <;> simp
  · rw [(rds_parse_group_basic_alt_freq_preserves _ _).2.2.1,
      (rds_parse_group_basic_di_preserves _ _).2.2.1]
    unfold rds_parse_group_basic_ps
    dsimp only
    split <;> simp_all


--
-- claim C3: station-name decoder atomicity
--

/-- Claim C3: for every parser state, feeding basic-type groups carrying
station-name fragments with addresses 0, 1 and 2 (in any combination, any
number of times) never changes the public station-name string; feeding all
four fragments with addresses 0, 1, 2, 3 in order makes the public
station-name string equal the exact concatenation of the four character
pairs. -/
theorem claim_C3 :
    (∀ (p : rds_parser_t) (gs : List rds_group_t),
      (∀ g ∈ gs, g.b >>> 12 = 0 ∧ g.b &&& 0x3 ≠ 3) →
      (gs.foldl rds_parser_update p).ps_str = p.ps_str) ∧
    (∀ (p : rds_parser_t) (g0 g1 g2 g3 : rds_group_t),
      g0.b >>> 12 = 0 → g0.b &&& 0x3 = 0 →
      g1.b >>> 12 = 0 → g1.b &&& 0x3 = 1 →
      g2.b >>> 12 = 0 → g2.b &&& 0x3 = 2 →
      g3.b >>> 12 = 0 → g3.b &&& 0x3 = 3 →
      ([g0, g1, g2, g3].foldl rds_parser_update p).ps_str 0 = g0.d >>> 8 ∧
      ([g0, g1, g2, g3].foldl rds_parser_update p).ps_str 1 = g0.d &&& 0xFF ∧
      ([g0, g1, g2, g3].foldl rds_parser_update p).ps_str 2 = g1.d >>> 8 ∧
      ([g0, g1, g2, g3].foldl rds_parser_update p).ps_str 3 = g1.d &&& 0xFF ∧
      ([g0, g1, g2, g3].foldl rds_parser_update p).ps_str 4 = g2.d >>> 8 ∧
      ([g0, g1, g2, g3].foldl rds_parser_update p).ps_str 5 = g2.d &&& 0xFF ∧
      ([g0, g1, g2, g3].foldl rds_parser_update p).ps_str 6 = g3.d >>> 8 ∧
      ([g0, g1, g2, g3].foldl rds_parser_update p).ps_str 7 =
        g3.d &&& 0xFF) := by
  constructor
  · intro p gs h
    induction gs generalizing p with
    | nil => rfl
    | cons g rest ih =>
      have hg := h g (List.mem_cons_self g rest)
      have step := (rds_update_basic_ps_fields p g hg.1).2
      rw [if_neg hg.2] at step
      simp only [List.foldl_cons]
      rw [ih (rds_parser_update p g) (fun x hx => h x (List.mem_cons_of_mem g hx)), step]
  · intro p g0 g1 g2 g3 h0t h0a h1t h1a h2t h2a h3t h3a
    have e0 := rds_update_basic_ps_fields p g0 h0t
    have e1 := rds_update_basic_ps_fields (rds_parser_update p g0) g1 h1t
    have e2 := rds_update_basic_ps_fields
      (rds_parser_update (rds_parser_update p g0) g1) g2 h2t
    have e3 := rds_update_basic_ps_fields
      (rds_parser_update (rds_parser_update (rds_parser_update p g0) g1) g2)
      g3 h3t
    rw [h0a] at e0
    rw [h1a] at e1
    rw [h2a] at e2
    rw [h3a] at e3
    simp only [List.foldl_cons, List.foldl_nil]
    rw [e3.2, if_pos rfl, e2.1, e1.1, e0.1, e2.2, if_neg (by norm_num),
      e1.2, if_neg (by norm_num), e0.2, if_neg (by norm_num)]
    norm_num [arr_copy, arr_set]

/-- Witness for claim C3: the four fragments (65,66), (67,68), (69,70),
(71,72) fed to a freshly reset parser in address order produce exactly that
public station name. -/
theorem claim_C3_witness :
    ([({ a := 0, b := 0, c := 0, d := 0x4142 } : rds_group_t),
      { a := 0, b := 1, c := 0, d := 0x4344 },
      { a := 0, b := 2, c := 0, d := 0x4546 },
      { a := 0, b := 3, c := 0, d := 0x4748 }].foldl rds_parser_update
        rds_parser_reset).ps_str 0 = 0x41 ∧
    ([({ a := 0, b := 0, c := 0, d := 0x4142 } : rds_group_t),
      { a := 0, b := 1, c := 0, d := 0x4344 },
      { a := 0, b := 2, c := 0, d := 0x4546 },
      { a := 0, b := 3, c := 0, d := 0x4748 }].foldl rds_parser_update
        rds_parser_reset).ps_str 7 = 0x48 := by
  refine ⟨(claim_C3.2 rds_parser_reset _ _ _ _ (by decide) (by decide)
    (by decide) (by decide) (by decide) (by decide) (by decide)
    (by decide)).1.trans (by decide), (claim_C3.2 rds_parser_reset _ _ _ _
    (by decide) (by decide) (by decide) (by decide) (by decide) (by decide)
    (by decide) (by decide)).2.2.2.2.2.2.2.trans (by decide)⟩

--
-- claim C4: alternate-frequency list admission
--

/-- Claim C4: a candidate alternate-frequency byte is appended if and only
if it is strictly between 0 and 205, the list holds fewer than its capacity
of 25 entries, and the value is not already present; otherwise it is
silently dropped with the list unchanged.  In particular feeding raw values
0, 205, 100, 100, 101 into an empty parser yields exactly the list
[100, 101] in that insertion order. -/
theorem claim_C4 :
    (∀ (p : rds_parser_t) (v : Nat), p.alt_freq.length ≤ 25 →
      (rds_add_alt_freq p v).alt_freq =
        (if 0 < v ∧ v < 205 ∧ p.alt_freq.length < 25 ∧ v ∉ p.alt_freq then
          p.alt_freq ++ [v]
        else p.alt_freq)) ∧
    (List.foldl rds_add_alt_freq rds_parser_reset
      [0, 205, 100, 100, 101]).alt_freq = [100, 101] := by
  constructor
  · intro p v hlen
    unfold rds_add_alt_freq
    by_cases h1 : v = 0 ∨ 205 ≤ v
    · rw [if_pos h1, if_neg (by rintro ⟨hv0, hv205, -, -⟩; omega)]
    · push_neg at h1
      rw [if_neg (by push_neg; exact h1)]
      by_cases h2 : p.alt_freq.length = 25
      · rw [if_pos h2, if_neg (by rintro ⟨-, -, hl, -⟩; omega)]
      · rw [if_neg h2]
        by_cases h3 : v ∈ p.alt_freq
        · rw [if_pos h3, if_neg (by rintro ⟨-, -, -, hm⟩; exact hm h3)]
        · rw [if_neg h3,
            if_pos ⟨by omega, by omega, by omega, h3⟩]
  · decide

/-- Witness for claim C4: adding 100 to a freshly reset parser (whose list
is within capacity) appends it. -/
theorem claim_C4_witness :
    (rds_add_alt_freq rds_parser_reset 100).alt_freq = [100] := by
  rw [claim_C4.1 rds_parser_reset 100 (by decide), if_pos (by decide)]
  decide

--
-- claim C9: ta / ms flags are never written
--

/-- Claim C9: the traffic-announcement and music flags are never written by
any update — for every sequence of groups fed after a reset,
rds_has_traffic_announcement and rds_has_music return false, even though
the data model lists both flags and public accessors exist for them. -/
theorem claim_C9 (gs : List rds_group_t) :
    rds_has_traffic_announcement (gs.foldl rds_parser_update
      rds_parser_reset) = false ∧
    rds_has_music (gs.foldl rds_parser_update rds_parser_reset) = false := by
  suffices h : ∀ p : rds_parser_t,
      (gs.foldl rds_parser_update p).ta = p.ta ∧
      (gs.foldl rds_parser_update p).ms = p.ms by
    exact ⟨(h rds_parser_reset).1, (h rds_parser_reset).2⟩
  induction gs with
  | nil => intro p; exact ⟨rfl, rfl⟩
  | cons g rest ih =>
    intro p
    simp only [List.foldl_cons]
    have hu := rds_parser_update_preserves_ta_ms p g
    have hr := ih (rds_parser_update p g)
    exact ⟨hr.1.trans hu.1, hr.2.trans hu.2⟩

--
-- claim C10: the station-name commit is triggered by address 3 alone
--

/-- Claim C10: feeding a single basic-type group with fragment address 3
immediately copies the entire 8-character scratch buffer to the public
station name — positions 6 and 7 from the group, positions 0 through 5 from
whatever currently occupies the scratch buffer — even if no groups with
addresses 0, 1 or 2 were received since the last reset. -/
theorem claim_C10 (p : rds_parser_t) (g : rds_group_t)
    (h1 : g.b >>> 12 = 0) (h2 : g.b &&& 0x3 = 3) :
    (rds_parser_update p g).ps_str 6 = g.d >>> 8 ∧
    (rds_parser_update p g).ps_str 7 = g.d &&& 0xFF ∧
    (∀ j, j < 6 → (rds_parser_update p g).ps_str j = p.ps_scratch_str j) ∧
    (∀ j, 8 ≤ j → (rds_parser_update p g).ps_str j = p.ps_str j) := by
  have e := (rds_update_basic_ps_fields p g h1).2
  rw [h2, if_pos rfl] at e
  rw [e]
  refine ⟨by norm_num [arr_copy, arr_set], by norm_num [arr_copy, arr_set],
    fun j hj => ?_, fun j hj => ?_⟩
  · unfold arr_copy arr_set
    rw [if_pos (by omega), if_neg (by omega), if_neg (by omega)]
  · unfold arr_copy
    rw [if_neg (by omega)]

/-- Witness for claim C10: a reset parser receiving one address-3 fragment
with characters (71, 72) publishes 71 and 72 at positions 6 and 7 and the
reset-time zero bytes at positions 0 through 5. -/
theorem claim_C10_witness :
    (rds_parser_update rds_parser_reset
      { a := 0, b := 3, c := 0, d := 0x4748 }).ps_str 6 = 0x47 ∧
    (rds_parser_update rds_parser_reset
      { a := 0, b := 3, c := 0, d := 0x4748 }).ps_str 0 = 0 := by
  have h := claim_C10 rds_parser_reset
    { a := 0, b := 3, c := 0, d := 0x4748 } (by decide) (by decide)
  exact ⟨h.1.trans (by decide), (h.2.2.1 0 (by decide)).trans rfl⟩

--
-- claim C7: radio-text carriage-return termination
--

/-- The combined effect of a version-0 (2A) radio-text group on the two
free-text buffers, expressed through the consumption loop. -/
theorem rds_update_rt_fields (p : rds_parser_t) (g : rds_group_t)
    (h1 : g.b >>> 12 = 2) (hv : (g.b >>> 11) &&& 0x1 = 0) :
    (rds_parser_update p g).rt_scratch_str =
      (rt_consume [g.c >>> 8, g.c &&& 0xFF, g.d >>> 8, g.d &&& 0xFF]
        ((g.b &&& 0xF) * 4) p.rt_scratch_str).1 ∧
    (rds_parser_update p g).rt_str =
      (if (rt_consume [g.c >>> 8, g.c &&& 0xFF, g.d >>> 8, g.d &&& 0xFF]
          ((g.b &&& 0xF) * 4) p.rt_scratch_str).2.2 then
        arr_copy p.rt_str
          (rt_consume [g.c >>> 8, g.c &&& 0xFF, g.d >>> 8, g.d &&& 0xFF]
            ((g.b &&& 0xF) * 4) p.rt_scratch_str).1 64
      else p.rt_str) := by
  unfold rds_parser_update rds_get_group_type rds_parse_group_rt
    rds_get_group_version
  rw [h1, hv]
  norm_num
  split <;> simp

/-- Bounded strlen of a buffer whose bytes before index n are nonzero and
whose byte at n is zero. -/
theorem cstr_len_from_spec (s : Nat → Nat) :
    ∀ (fuel i n : Nat), i ≤ n → n < i + fuel →
    (∀ j, i ≤ j → j < n → s j ≠ 0) → s n = 0 →
    cstr_len_from s i fuel = n - i := by
  intro fuel
  induction fuel with
  | zero => intro i n h1 h2 _ _; omega
  | succ fuel ih =>
    intro i n h1 h2 hnz hz
    unfold cstr_len_from
    by_cases hi : s i = 0
    · rw [if_pos hi]
      have : i = n := by
        by_contra hne
        exact hnz i le_rfl (by omega) hi
      omega
    · rw [if_neg hi]
      have hin : i ≠ n := fun h => hi (h ▸ hz)
      rw [ih (i + 1) n (by omega) (by omega)
        (fun j hj1 hj2 => hnz j (by omega) hj2) hz]
      omega

/-- Claim C7: for every parser state, a radio-text fragment sequence
containing a carriage-return character at character position 10 (here three
2A groups with addresses 0, 1, 2, the third carrying the carriage return as
its third character) commits a public free-text string of exactly 10
characters, truncated (null-terminated) at that position. -/
theorem claim_C7 (p : rds_parser_t) (g0 g1 g2 : rds_group_t)
    (h0t : g0.b >>> 12 = 2) (h0v : (g0.b >>> 11) &&& 0x1 = 0)
    (h0a : g0.b &&& 0xF = 0)
    (h1t : g1.b >>> 12 = 2) (h1v : (g1.b >>> 11) &&& 0x1 = 0)
    (h1a : g1.b &&& 0xF = 1)
    (h2t : g2.b >>> 12 = 2) (h2v : (g2.b >>> 11) &&& 0x1 = 0)
    (h2a : g2.b &&& 0xF = 2)
    (hcr : g2.d >>> 8 = 13)
    (hc0 : g0.c >>> 8 ≠ 13) (hz0 : g0.c >>> 8 ≠ 0)
    (hc1 : g0.c &&& 0xFF ≠ 13) (hz1 : g0.c &&& 0xFF ≠ 0)
    (hc2 : g0.d >>> 8 ≠ 13) (hz2 : g0.d >>> 8 ≠ 0)
    (hc3 : g0.d &&& 0xFF ≠ 13) (hz3 : g0.d &&& 0xFF ≠ 0)
    (hc4 : g1.c >>> 8 ≠ 13) (hz4 : g1.c >>> 8 ≠ 0)
    (hc5 : g1.c &&& 0xFF ≠ 13) (hz5 : g1.c &&& 0xFF ≠ 0)
    (hc6 : g1.d >>> 8 ≠ 13) (hz6 : g1.d >>> 8 ≠ 0)
    (hc7 : g1.d &&& 0xFF ≠ 13) (hz7 : g1.d &&& 0xFF ≠ 0)
    (hc8 : g2.c >>> 8 ≠ 13) (hz8 : g2.c >>> 8 ≠ 0)
    (hc9 : g2.c &&& 0xFF ≠ 13) (hz9 : g2.c &&& 0xFF ≠ 0) :
    rt_c_str_len (([g0, g1, g2].foldl rds_parser_update p).rt_str) = 10 ∧
    ([g0, g1, g2].foldl rds_parser_update p).rt_str 0 = g0.c >>> 8 ∧
    ([g0, g1, g2].foldl rds_parser_update p).rt_str 1 = g0.c &&& 0xFF ∧
    ([g0, g1, g2].foldl rds_parser_update p).rt_str 2 = g0.d >>> 8 ∧
    ([g0, g1, g2].foldl rds_parser_update p).rt_str 3 = g0.d &&& 0xFF ∧
    ([g0, g1, g2].foldl rds_parser_update p).rt_str 4 = g1.c >>> 8 ∧
    ([g0, g1, g2].foldl rds_parser_update p).rt_str 5 = g1.c &&& 0xFF ∧
    ([g0, g1, g2].foldl rds_parser_update p).rt_str 6 = g1.d >>> 8 ∧
    ([g0, g1, g2].foldl rds_parser_update p).rt_str 7 = g1.d &&& 0xFF ∧
    ([g0, g1, g2].foldl rds_parser_update p).rt_str 8 = g2.c >>> 8 ∧
    ([g0, g1, g2].foldl rds_parser_update p).rt_str 9 = g2.c &&& 0xFF ∧
    ([g0, g1, g2].foldl rds_parser_update p).rt_str 10 = 0 := by
  have e0 := rds_update_rt_fields p g0 h0t h0v
  rw [h0a] at e0
  rw [show (0 : Nat) * 4 = 0 from rfl] at e0
  have r0 : rt_consume [g0.c >>> 8, g0.c &&& 0xFF, g0.d >>> 8,
      g0.d &&& 0xFF] 0 p.rt_scratch_str =
      (arr_set (arr_set (arr_set (arr_set p.rt_scratch_str 0 (g0.c >>> 8))
        1 (g0.c &&& 0xFF)) 2 (g0.d >>> 8)) 3 (g0.d &&& 0xFF), 4, false) := by
    simp [rt_consume, hc0, hc1, hc2, hc3]
  rw [r0] at e0
  have e1 := rds_update_rt_fields (rds_parser_update p g0) g1 h1t h1v
  rw [h1a] at e1
  rw [show (1 : Nat) * 4 = 4 from rfl, e0.1] at e1
  have r1 : rt_consume [g1.c >>> 8, g1.c &&& 0xFF, g1.d >>> 8,
      g1.d &&& 0xFF] 4
      (arr_set (arr_set (arr_set (arr_set p.rt_scratch_str 0 (g0.c >>> 8))
        1 (g0.c &&& 0xFF)) 2 (g0.d >>> 8)) 3 (g0.d &&& 0xFF)) =
      (arr_set (arr_set (arr_set (arr_set
        (arr_set (arr_set (arr_set (arr_set p.rt_scratch_str 0
          (g0.c >>> 8)) 1 (g0.c &&& 0xFF)) 2 (g0.d >>> 8)) 3
          (g0.d &&& 0xFF))
        4 (g1.c >>> 8)) 5 (g1.c &&& 0xFF)) 6 (g1.d >>> 8)) 7
        (g1.d &&& 0xFF), 8, false) := by
    simp [rt_consume, hc4, hc5, hc6, hc7]
  rw [r1] at e1
  have e2 := rds_update_rt_fields
    (rds_parser_update (rds_parser_update p g0) g1) g2 h2t h2v
  rw [h2a] at e2
  rw [show (2 : Nat) * 4 = 8 from rfl, e1.1] at e2
  have r2 : rt_consume [g2.c >>> 8, g2.c &&& 0xFF, g2.d >>> 8,
      g2.d &&& 0xFF] 8
      (arr_set (arr_set (arr_set (arr_set
        (arr_set (arr_set (arr_set (arr_set p.rt_scratch_str 0
          (g0.c >>> 8)) 1 (g0.c &&& 0xFF)) 2 (g0.d >>> 8)) 3
          (g0.d &&& 0xFF))
        4 (g1.c >>> 8)) 5 (g1.c &&& 0xFF)) 6 (g1.d >>> 8)) 7
        (g1.d &&& 0xFF)) =
      (arr_set (arr_set (arr_set
        (arr_set (arr_set (arr_set (arr_set
          (arr_set (arr_set (arr_set (arr_set p.rt_scratch_str 0
            (g0.c >>> 8)) 1 (g0.c &&& 0xFF)) 2 (g0.d >>> 8)) 3
            (g0.d &&& 0xFF))
          4 (g1.c >>> 8)) 5 (g1.c &&& 0xFF)) 6 (g1.d >>> 8)) 7
          (g1.d &&& 0xFF))
        8 (g2.c >>> 8)) 9 (g2.c &&& 0xFF)) 10 0, 11, true) := by
    simp [rt_consume, hc8, hc9, hcr]
  rw [r2] at e2
  rw [if_pos rfl] at e2
  simp only [List.foldl_cons, List.foldl_nil]
  have hstr := e2.2
  have look : ∀ j, j ≤ 10 →
      (rds_parser_update (rds_parser_update (rds_parser_update p g0) g1)
        g2).rt_str j =
      (arr_set (arr_set (arr_set
        (arr_set (arr_set (arr_set (arr_set
          (arr_set (arr_set (arr_set (arr_set p.rt_scratch_str 0
            (g0.c >>> 8)) 1 (g0.c &&& 0xFF)) 2 (g0.d >>> 8)) 3
            (g0.d &&& 0xFF))
          4 (g1.c >>> 8)) 5 (g1.c &&& 0xFF)) 6 (g1.d >>> 8)) 7
          (g1.d &&& 0xFF))
        8 (g2.c >>> 8)) 9 (g2.c &&& 0xFF)) 10 0) j := by
    intro j hj
    rw [hstr]
    unfold arr_copy
    rw [if_pos (by omega)]
  refine ⟨?_, ?_, ?_, ?_, ?_, ?_, ?_, ?_, ?_, ?_, ?_, ?_⟩
  · unfold rt_c_str_len
    rw [cstr_len_from_spec _ 65 0 10 (by omega) (by omega) ?_ ?_]
    · intro j hj1 hj2
      rw [look j (by omega)]
      interval_cases j <;> simp [arr_set] <;> assumption
    · rw [look 10 (by omega)]
      simp [arr_set]
  · rw [look 0 (by omega)]; simp [arr_set]
  · rw [look 1 (by omega)]; simp [arr_set]
  · rw [look 2 (by omega)]; simp [arr_set]
  · rw [look 3 (by omega)]; simp [arr_set]
  · rw [look 4 (by omega)]; simp [arr_set]
  · rw [look 5 (by omega)]; simp [arr_set]
  · rw [look 6 (by omega)]; simp [arr_set]
  · rw [look 7 (by omega)]; simp [arr_set]
  · rw [look 8 (by omega)]; simp [arr_set]
  · rw [look 9 (by omega)]; simp [arr_set]
  · rw [look 10 (by omega)]; simp [arr_set]

/-- Witness for claim C7: a reset parser fed 2A radio-text groups carrying
"ABCDEFGHIJ" followed by a carriage return at position 10 publishes a
10-character string starting with 65. -/
theorem claim_C7_witness :
    rt_c_str_len (([({ a := 0, b := 0x2000, c := 0x4142, d := 0x4344 } :
        rds_group_t),
      { a := 0, b := 0x2001, c := 0x4546, d := 0x4748 },
      { a := 0, b := 0x2002, c := 0x494A, d := 0x0D00 }].foldl
        rds_parser_update rds_parser_reset).rt_str) = 10 ∧
    ([({ a := 0, b := 0x2000, c := 0x4142, d := 0x4344 } : rds_group_t),
      { a := 0, b := 0x2001, c := 0x4546, d := 0x4748 },
      { a := 0, b := 0x2002, c := 0x494A, d := 0x0D00 }].foldl
        rds_parser_update rds_parser_reset).rt_str 0 = 0x41 := by
  have h := claim_C7 rds_parser_reset
    { a := 0, b := 0x2000, c := 0x4142, d := 0x4344 }
    { a := 0, b := 0x2001, c := 0x4546, d := 0x4748 }
    { a := 0, b := 0x2002, c := 0x494A, d := 0x0D00 }
    (by decide) (by decide) (by decide) (by decide) (by decide) (by decide)
    (by decide) (by decide) (by decide) (by decide) (by decide) (by decide)
    (by decide) (by decide) (by decide) (by decide) (by decide) (by decide)
    (by decide) (by decide) (by decide) (by decide) (by decide) (by decide)
    (by decide) (by decide) (by decide) (by decide) (by decide) (by decide)
  exact ⟨h.1, h.2.1.trans (by decide)⟩

--
-- claim C1: mirror updates vs. write failure
--

/-- Counterexample to claim C1: on radio0 (currently unmuted), fm_set_mute
with a failing register write (writeOk = false) still flips the mirrored
mute field, so the mirror is NOT left unchanged on a failed write. -/
theorem claim_C1_counterexample :
    radio0.mute = false ∧ (fm_set_mute radio0 true false).1.mute = true := by
  constructor
  · rfl
  · rfl

/-- Claim C1 as amended: every setter ignores the boolean result of the
register write entirely — the returned state is identical for a failed and
a successful write — and the mirrored field is updated unconditionally to
the (clamped) requested value once the write is issued, so the mirror can
diverge from the hardware on a failed write. -/
theorem claim_C1_amended (radio : rda5807_t) (b : Bool) (v : Nat)
    (ok ok2 : Bool) :
    fm_set_mute radio b ok = fm_set_mute radio b ok2 ∧
    (fm_set_mute radio b ok).1.mute = b ∧
    fm_set_softmute radio b ok = fm_set_softmute radio b ok2 ∧
    (fm_set_softmute radio b ok).1.softmute = b ∧
    fm_set_mono radio b ok = fm_set_mono radio b ok2 ∧
    (fm_set_mono radio b ok).1.mono = b ∧
    fm_set_bass_boost radio b ok = fm_set_bass_boost radio b ok2 ∧
    (fm_set_bass_boost radio b ok).1.bass_boost = b ∧
    fm_set_volume radio v ok = fm_set_volume radio v ok2 ∧
    (fm_set_volume radio v ok).1.volume = min v FM_MAX_VOLUME ∧
    fm_set_seek_threshold radio v ok = fm_set_seek_threshold radio v ok2 ∧
    (fm_set_seek_threshold radio v ok).1.seek_threshold =
      min v FM_MAX_SEEK_THRESHOLD := by
  refine ⟨rfl, ?_, rfl, ?_, rfl, ?_, rfl, ?_, rfl, ?_, rfl, ?_⟩
  · unfold fm_set_mute
    dsimp only
    split <;> simp_all
  · unfold fm_set_softmute
    dsimp only
    split <;> simp_all
  · unfold fm_set_mono
    dsimp only
    split <;> simp_all
  · unfold fm_set_bass_boost
    dsimp only
    split <;> simp_all
  · unfold fm_set_volume
    dsimp only
    split <;> simp_all
  · unfold fm_set_seek_threshold
    dsimp only
    split <;> simp_all

--
-- claim C2: setter idempotence
--

/-- Counterexample to claim C2: on the powered-up, task-free radio0 tuned to
90 MHz, the async frequency setter called with the frequency already in
effect still issues a register write and arms a tune task, so the claim
fails for the async frequency variant. -/
theorem claim_C2_counterexample :
    fm_is_powered_up radio0 = true ∧
    radio0.async.task = none ∧
    radio0.frequency = 90 ∧
    (fm_set_frequency_async radio0 90 0).2 ≠ [] ∧
    (fm_set_frequency_async radio0 90 0).1.async.task =
      some fm_async_task_t.set_frequency := by
  refine ⟨by decide, by decide, rfl, ?_, ?_⟩
  · unfold fm_set_frequency_async
    simp
  · unfold fm_set_frequency_async
    simp

/-- Claim C2 as amended: for every powered-up device with no async task in
flight (and mirrors within their clamping ranges), calling the six simple
setters or the blocking frequency setter with the value already in effect
performs zero bus operations and returns the device state unchanged; the
async frequency variant is excluded, since it always writes the channel
register and starts a tune task. -/
theorem claim_C2_amended (radio : rda5807_t) (ok : Bool) (now : Nat)
    (hw : Nat → hw_responses) (fuel : Nat)
    (hpow : fm_is_powered_up radio = true)
    (htask : radio.async.task = none)
    (hvol : radio.volume ≤ FM_MAX_VOLUME)
    (hth : radio.seek_threshold ≤ FM_MAX_SEEK_THRESHOLD) :
    fm_set_mute radio radio.mute ok = (radio, []) ∧
    fm_set_softmute radio radio.softmute ok = (radio, []) ∧
    fm_set_mono radio radio.mono ok = (radio, []) ∧
    fm_set_bass_boost radio radio.bass_boost ok = (radio, []) ∧
    fm_set_volume radio radio.volume ok = (radio, []) ∧
    fm_set_seek_threshold radio radio.seek_threshold ok = (radio, []) ∧
    fm_set_frequency_blocking radio radio.frequency now hw fuel =
      (radio, []) := by
  refine ⟨?_, ?_, ?_, ?_, ?_, ?_, ?_⟩
  · simp [fm_set_mute]
  · simp [fm_set_softmute]
  · simp [fm_set_mono]
  · simp [fm_set_bass_boost]
  · simp [fm_set_volume, Nat.min_eq_left hvol]
  · simp [fm_set_seek_threshold, Nat.min_eq_left hth]
  · simp [fm_set_frequency_blocking]

/-- Witness for claim C2 (amended): the equal-value calls are no-ops on the
concrete radio0. -/
theorem claim_C2_witness :
    fm_set_volume radio0 5 true = (radio0, []) ∧
    fm_set_frequency_blocking radio0 90 0 (fun _ => hw_zero) 100 =
      (radio0, []) := by
  have h := claim_C2_amended radio0 true 0 (fun _ => hw_zero) 100
    (by decide) (by decide) (by decide) (by decide)
  exact ⟨h.2.2.2.2.1, h.2.2.2.2.2.2⟩

--
-- claim C5: frequency / channel round trip
--

/-- Claim C5: for every band and channel-spacing combination and every
frequency f within that band's range, converting f to a channel number and
back yields a frequency that differs from f by at most half the channel
spacing (float arithmetic idealized as exact rationals). -/
theorem claim_C5 (band : fm_band_t) (spacing : fm_channel_spacing_t)
    (f : ℚ)
    (h1 : (fm_frequency_range band spacing).bottom ≤ f)
    (h2 : f ≤ (fm_frequency_range band spacing).top) :
    |fm_channel_to_frequency
        (fm_frequency_to_channel f (fm_frequency_range band spacing))
        (fm_frequency_range band spacing) - f| ≤
      (fm_frequency_range band spacing).spacing / 2 := by
  have hs : 0 < (fm_frequency_range band spacing).spacing := by
    cases spacing <;> norm_num [fm_frequency_range]
  set R := fm_frequency_range band spacing with hR
  set x := (f - R.bottom) / R.spacing with hx
  have hx0 : 0 ≤ x := div_nonneg (by linarith) hs.le
  have hr0 : (0 : ℤ) ≤ round x := by
    rw [round_eq]
    exact Int.floor_nonneg.mpr (by linarith)
  have hcast : (((round x).toNat : ℚ)) = ((round x : ℤ) : ℚ) := by
    exact_mod_cast Int.toNat_of_nonneg hr0
  unfold fm_channel_to_frequency fm_frequency_to_channel
  rw [← hx, hcast]
  have hxs : x * R.spacing = f - R.bottom := div_mul_cancel₀ _ hs.ne'
  have key : ((round x : ℤ) : ℚ) * R.spacing + R.bottom - f =
      (((round x : ℤ) : ℚ) - x) * R.spacing := by
    rw [sub_mul, hxs]
    ring
  rw [key, abs_mul, abs_of_pos hs]
  have hb : |((round x : ℤ) : ℚ) - x| ≤ 1 / 2 := by
    rw [abs_sub_comm]
    exact abs_sub_round x
  calc |((round x : ℤ) : ℚ) - x| * R.spacing ≤ (1 / 2) * R.spacing :=
        mul_le_mul_of_nonneg_right hb hs.le
    _ = R.spacing / 2 := by ring

/-- Witness for claim C5: 100 MHz in the common band at 100 kHz spacing
round-trips to within half a step. -/
theorem claim_C5_witness :
    (fm_frequency_range .common .s100).bottom ≤ (100 : ℚ) ∧
    (100 : ℚ) ≤ (fm_frequency_range .common .s100).top ∧
    |fm_channel_to_frequency (fm_frequency_to_channel 100
        (fm_frequency_range .common .s100))
        (fm_frequency_range .common .s100) - 100| ≤
      (fm_frequency_range .common .s100).spacing / 2 :=
  ⟨by norm_num [fm_frequency_range], by norm_num [fm_frequency_range],
   claim_C5 .common .s100 100 (by norm_num [fm_frequency_range])
     (by norm_num [fm_frequency_range])⟩

--
-- claim C6: ticks before the resume time are no-ops
--

/-- Claim C6: for every device with an async task in flight, a tick made
when the current time is earlier than the task's scheduled resume time is a
guaranteed no-op: it performs no register access, changes no device or task
state, and reports not-done (the task's step function body is only entered
at or after the resume time). -/
theorem claim_C6 (radio : rda5807_t) (now : Nat) (hw : hw_responses)
    (h1 : radio.async.task ≠ none)
    (h2 : now < radio.async.resume_time) :
    fm_async_task_tick radio now hw =
      (radio, { done := false, result := 0 }, []) := by
  unfold fm_async_task_tick
  rw [if_pos h2]

/-- Witness for claim C6: a tick at time 0 on radio_tuning (resume time
1000) returns the state untouched. -/
theorem claim_C6_witness :
    radio_tuning.async.task ≠ none ∧
    (0 : Nat) < radio_tuning.async.resume_time ∧
    fm_async_task_tick radio_tuning 0 hw_zero =
      (radio_tuning, { done := false, result := 0 }, []) := by
  refine ⟨by decide, by decide, claim_C6 radio_tuning 0 hw_zero (by decide)
    (by decide)⟩

--
-- claim C8: power down clears only the enable bit
--

/-- Claim C8: for every powered-up device, power down first cancels any
in-flight async task (fm_cancel_if_active) and then clears only the ENABLE
bit of mirrored register 0x2: relative to the post-cancellation state, the
enable bit reads back cleared, every other register of the mirrored bank is
unchanged, and every mirrored state field (frequency, volume, mute,
softmute, mono, bass boost, seek threshold, config, frequency range) is
unchanged. -/
theorem claim_C8 (radio : rda5807_t) (now : Nat) (hw : hw_responses)
    (hpow : fm_is_powered_up radio = true) :
    (fm_power_down radio now hw).1.regs 0x2 =
      (fm_cancel_if_active radio now hw).1.regs 0x2 &&&
        (0xFFFF ^^^ ENABLE_BIT) ∧
    fm_is_powered_up (fm_power_down radio now hw).1 = false ∧
    (∀ i, i ≠ 2 → (fm_power_down radio now hw).1.regs i =
      (fm_cancel_if_active radio now hw).1.regs i) ∧
    (fm_power_down radio now hw).1.frequency =
      (fm_cancel_if_active radio now hw).1.frequency ∧
    (fm_power_down radio now hw).1.volume =
      (fm_cancel_if_active radio now hw).1.volume ∧
    (fm_power_down radio now hw).1.mute =
      (fm_cancel_if_active radio now hw).1.mute ∧
    (fm_power_down radio now hw).1.softmute =
      (fm_cancel_if_active radio now hw).1.softmute ∧
    (fm_power_down radio now hw).1.mono =
      (fm_cancel_if_active radio now hw).1.mono ∧
    (fm_power_down radio now hw).1.bass_boost =
      (fm_cancel_if_active radio now hw).1.bass_boost ∧
    (fm_power_down radio now hw).1.seek_threshold =
      (fm_cancel_if_active radio now hw).1.seek_threshold ∧
    (fm_power_down radio now hw).1.config =
      (fm_cancel_if_active radio now hw).1.config ∧
    (fm_power_down radio now hw).1.frequency_range =
      (fm_cancel_if_active radio now hw).1.frequency_range := by
  refine ⟨?_, ?_, ?_, rfl, rfl, rfl, rfl, rfl, rfl, rfl, rfl, rfl⟩
  · unfold fm_power_down
    simp [arr_set, fm_set_bit]
  · have hz : ((0xFFFF ^^^ ENABLE_BIT) &&& ENABLE_BIT : Nat) = 0 := by
      decide
    unfold fm_is_powered_up fm_power_down fm_get_bit
    dsimp only
    simp [arr_set, fm_set_bit, Nat.and_assoc, hz]
  · intro i hi
    unfold fm_power_down
    simp [arr_set, hi]

/-- Witness for claim C8: powering down radio0 keeps its mirrors and turns
the powered-up query false. -/
theorem claim_C8_witness :
    fm_is_powered_up radio0 = true ∧
    fm_is_powered_up (fm_power_down radio0 0 hw_zero).1 = false ∧
    (fm_power_down radio0 0 hw_zero).1.frequency = 90 ∧
    (fm_power_down radio0 0 hw_zero).1.volume = 5 := by
  have h := claim_C8 radio0 0 hw_zero (by decide)
  refine ⟨by decide, h.2.1, ?_, ?_⟩
  · rw [h.2.2.2.1]
    rfl
  · rw [h.2.2.2.2.1]
    rfl
